import Mathlib

/-!
Verification of the bulletc physics bridge (name-needed repository).

This file gives a shallow embedding, in Lean 4, of the hand-written layer that
sits between the game and the vendored rigid-body engine:

  * collision group/mask constants (`common.hpp`),
  * the jump sensor (`entity_collider.cpp`: construction, placement, polling),
  * the entity collider entry points (`entity_collider.cpp`:
    `entity_collider_get`, `entity_collider_get_pos`, `entity_collider_set`),
  * the slab hot-swap routine (`dynworld.cpp`: `slab_collider_update`),
  * the debug-draw bridge (`dynworld.cpp`: `dynworld_set_debug_drawer`,
    `dynworld_debug_draw`),
  * the direction/quaternion conversion declared in the game header
    (`rotate_to_quat_raw`, `rotate_from_quat_raw`; their translation units are
    not part of the sources, so they are modelled from the spec over ℝ).

Machine floats are modelled as exact rationals (ℚ) for the collider geometry
and as reals (ℝ) for the quaternion round trip; pointers are modelled as
`Option`, with `none` standing for NULL, and operations whose C++ execution is
undefined (dereference of a null or dangling pointer) return `none`.
The vendored engine itself (broadphase, solver, `contactPairTest`,
`debugDrawWorld`) is out of scope and enters only through explicit parameters:
the list of broadphase overlaps a poll sees, the number of line primitives a
debug traversal emits, and the angle-to-basis conversion of `btQuaternion`.
-/

/-- Exact-rational model of `btVector3` (three machine floats). -/
structure Vec3Q where
  x : ℚ
  y : ℚ
  z : ℚ
deriving DecidableEq, Repr

/-- Componentwise vector addition. -/
def Vec3Q.add (a b : Vec3Q) : Vec3Q := ⟨a.x + b.x, a.y + b.y, a.z + b.z⟩

/-- Scalar multiplication of a vector. -/
def Vec3Q.smul (k : ℚ) (v : Vec3Q) : Vec3Q := ⟨k * v.x, k * v.y, k * v.z⟩

/-- Dot product. -/
def Vec3Q.dot (a b : Vec3Q) : ℚ := a.x * b.x + a.y * b.y + a.z * b.z

/-- The zero vector. -/
def Vec3Q.zero : Vec3Q := ⟨0, 0, 0⟩

/-- `UP` from common.hpp: the z axis. -/
def UPv : Vec3Q := ⟨0, 0, 1⟩

/-- `FWD` from common.hpp: the y axis. -/
def FWDv : Vec3Q := ⟨0, 1, 0⟩

/-- Row-major 3x3 matrix, the model of `btMatrix3x3` (a basis). -/
structure Mat3Q where
  r0 : Vec3Q
  r1 : Vec3Q
  r2 : Vec3Q
deriving DecidableEq, Repr

/-- The identity basis. -/
def Mat3Q.id : Mat3Q := ⟨⟨1, 0, 0⟩, ⟨0, 1, 0⟩, ⟨0, 0, 1⟩⟩

/-- Matrix-vector application. -/
def Mat3Q.mulVec (m : Mat3Q) (v : Vec3Q) : Vec3Q :=
  ⟨m.r0.dot v, m.r1.dot v, m.r2.dot v⟩

/-- Matrix product (rows of `a` against columns of `b`). -/
def Mat3Q.mul (a b : Mat3Q) : Mat3Q :=
  ⟨⟨a.r0.x * b.r0.x + a.r0.y * b.r1.x + a.r0.z * b.r2.x,
    a.r0.x * b.r0.y + a.r0.y * b.r1.y + a.r0.z * b.r2.y,
    a.r0.x * b.r0.z + a.r0.y * b.r1.z + a.r0.z * b.r2.z⟩,
   ⟨a.r1.x * b.r0.x + a.r1.y * b.r1.x + a.r1.z * b.r2.x,
    a.r1.x * b.r0.y + a.r1.y * b.r1.y + a.r1.z * b.r2.y,
    a.r1.x * b.r0.z + a.r1.y * b.r1.z + a.r1.z * b.r2.z⟩,
   ⟨a.r2.x * b.r0.x + a.r2.y * b.r1.x + a.r2.z * b.r2.x,
    a.r2.x * b.r0.y + a.r2.y * b.r1.y + a.r2.z * b.r2.y,
    a.r2.x * b.r0.z + a.r2.y * b.r1.z + a.r2.z * b.r2.z⟩⟩

/-- Model of `btTransform`: a basis plus an origin. -/
structure TransformQ where
  basis : Mat3Q
  origin : Vec3Q
deriving DecidableEq, Repr

/-- The identity transform (`btTransform::getIdentity`). -/
def TransformQ.idT : TransformQ := ⟨Mat3Q.id, Vec3Q.zero⟩

/-- Transform composition `a * b` as in Bullet: apply `b` first, then `a`. -/
def TransformQ.compose (a b : TransformQ) : TransformQ :=
  ⟨a.basis.mul b.basis, (a.basis.mulVec b.origin).add a.origin⟩

theorem Mat3Q.mul_id (a : Mat3Q) : a.mul Mat3Q.id = a := by
  cases a with
  | mk r0 r1 r2 =>
    cases r0; cases r1; cases r2
    simp [Mat3Q.mul, Mat3Q.id]

theorem Vec3Q.add_zero_left (v : Vec3Q) : Vec3Q.zero.add v = v := by
  cases v; simp [Vec3Q.add, Vec3Q.zero]

/-! ## Collision groups and masks (common.hpp) -/

/-- `COL_WORLD` from common.hpp. -/
def COL_WORLD : Nat := 1 <<< 10

/-- `COL_ENTITIES` from common.hpp. -/
def COL_ENTITIES : Nat := 1 <<< 11

/-- `COL_ENTITY_JUMP_SENSOR` from common.hpp. -/
def COL_ENTITY_JUMP_SENSOR : Nat := 1 <<< 12

/-- `COLMASK_WORLD` from common.hpp: what world geometry collides with. -/
def COLMASK_WORLD : Nat := COL_ENTITIES ||| COL_ENTITY_JUMP_SENSOR

/-- `COLMASK_ENTITY` from common.hpp. -/
def COLMASK_ENTITY : Nat := COL_WORLD

/-- `COLMASK_ENTITY_JUMP_SENSOR` from common.hpp. -/
def COLMASK_ENTITY_JUMP_SENSOR : Nat := COL_WORLD

/-- A (group, mask) pair as passed to `addRigidBody` / `addCollisionObject`. -/
structure ColFilter where
  group : Nat
  mask : Nat
deriving DecidableEq, Repr

/-- Bullet's broadphase filter: a pair generates contacts only if each side's
group intersects the other side's mask. -/
def needsCollision (a b : ColFilter) : Bool :=
  (a.group &&& b.mask != 0) && (b.group &&& a.mask != 0)

/-- The three kinds of objects this layer ever registers in the world:
the slab body (`slab_collider_update`), the entity rigid body and the jump
sensor ghost object (`entity_collider_create`). -/
inductive RegisteredKind
  | slabBody
  | entityBody
  | jumpSensorBody
deriving DecidableEq, Repr

/-- The (group, mask) each registration site passes to the world:
`addRigidBody(collider->slab_body, COL_WORLD, COLMASK_WORLD)`,
`addRigidBody(&collider->body, COL_ENTITIES, COLMASK_ENTITY)`,
`addCollisionObject(&...->jump_sensor->body, COL_ENTITY_JUMP_SENSOR,
COLMASK_ENTITY_JUMP_SENSOR)`. -/
def registration : RegisteredKind → ColFilter
  | .slabBody => ⟨COL_WORLD, COLMASK_WORLD⟩
  | .entityBody => ⟨COL_ENTITIES, COLMASK_ENTITY⟩
  | .jumpSensorBody => ⟨COL_ENTITY_JUMP_SENSOR, COLMASK_ENTITY_JUMP_SENSOR⟩

/-- C4: every registered object carries one of the three fixed filters, the
three groups are pairwise disjoint bit flags, and two registered objects of
the same group never pass the broadphase filter. -/
theorem C4_collision_masks :
    (∀ k : RegisteredKind,
      registration k = ⟨COL_WORLD, COLMASK_WORLD⟩ ∨
      registration k = ⟨COL_ENTITIES, COLMASK_ENTITY⟩ ∨
      registration k = ⟨COL_ENTITY_JUMP_SENSOR, COLMASK_ENTITY_JUMP_SENSOR⟩) ∧
    (COL_WORLD &&& COL_ENTITIES = 0 ∧ COL_WORLD &&& COL_ENTITY_JUMP_SENSOR = 0 ∧
      COL_ENTITIES &&& COL_ENTITY_JUMP_SENSOR = 0) ∧
    (∀ k1 k2 : RegisteredKind,
      (registration k1).group = (registration k2).group →
      needsCollision (registration k1) (registration k2) = false) := by
  refine ⟨?_, ?_, ?_⟩
  · intro k; cases k <;> simp [registration]
  · decide
  · intro k1 k2 h
    cases k1 <;> cases k2 <;> revert h <;> decide

/-- Witness for C4 at a concrete pair: two entity bodies share a group and the
broadphase filter rejects the pair. -/
theorem C4_collision_masks_witness :
    (registration .entityBody).group = (registration .entityBody).group ∧
    needsCollision (registration .entityBody) (registration .entityBody) = false :=
  ⟨rfl, C4_collision_masks.2.2 .entityBody .entityBody rfl⟩

/-! ## The jump sensor (entity_collider.cpp) -/

/-- Model of `struct entity_jump_sensor`: the occlusion word (`unsigned int
occluded`), the ghost body's world transform, and the box shape's half extents
(`btBoxShape::getHalfExtentsWithoutMargin`, idealized without the collision
margin of the vendored engine). -/
structure entity_jump_sensor where
  occluded : Nat
  transform : TransformQ
  shapeHalf : Vec3Q
deriving DecidableEq, Repr

/-- The `entity_jump_sensor` constructor: `occluded(false)`, shape rebuilt from
the entity half extents with SIDE and FWD scaled by 0.8 and UP by 0.25; the
ghost body starts at the default (identity) transform. -/
def entity_jump_sensor.construct (half_dims : Vec3Q) : entity_jump_sensor :=
  { occluded := 0
    transform := TransformQ.idT
    shapeHalf := ⟨(8 / 10) * half_dims.x, (8 / 10) * half_dims.y,
                  (25 / 100) * half_dims.z⟩ }

/-- `entity_jump_sensor::update_jump_sensor_transform`: build a pure
translation `FWD * half_dims[FWD] * (2.0 - shapeHalf[FWD]) + UP *
half_dims[UP] * (-0.5)` and set the ghost body's world transform to
`body_transform * translation`. -/
def entity_jump_sensor.update_jump_sensor_transform (s : entity_jump_sensor)
    (half_dims : Vec3Q) (body_transform : TransformQ) : entity_jump_sensor :=
  let translation : Vec3Q :=
    (Vec3Q.smul (half_dims.y * (2 - s.shapeHalf.y)) FWDv).add
      (Vec3Q.smul (half_dims.z * (-1 / 2)) UPv)
  { s with transform :=
      body_transform.compose ⟨Mat3Q.id, Vec3Q.zero.add translation⟩ }

/-- What `entity_jump_sensor::poll` returns together with its effects: the
boolean result, the sensor after the poll, and how many precise contact tests
(`contactPairTest`) were run. -/
structure PollResult where
  result : Bool
  sensor : entity_jump_sensor
  contactTests : Nat
deriving Repr

/-- The loop body of `poll`: each `contactPairTest(&body, other, callback)`
whose narrowphase finds a contact point runs `jump_sensor_callback::
addSingleResult`, which executes `*occluded |= 1u` on the sensor's occlusion
word. An overlap is modelled by the boolean "the contact test against it finds
a contact". -/
def contactFold (occluded : Nat) (overlaps : List Bool) : Nat :=
  overlaps.foldl (fun acc hit => if hit then acc ||| 1 else acc) occluded

/-- `entity_jump_sensor::poll`: run a contact test for every object in the
broadphase overlap cache, read `occluded == 1`, then reset `occluded = 0`. -/
def entity_jump_sensor.poll (s : entity_jump_sensor) (overlaps : List Bool) :
    PollResult :=
  let occ2 := contactFold s.occluded overlaps
  { result := occ2 == 1
    sensor := { s with occluded := 0 }
    contactTests := overlaps.length }

theorem contactFold_eq (overlaps : List Bool) :
    contactFold 0 overlaps = if overlaps.any id then 1 else 0 := by
  induction overlaps with
  | nil => simp [contactFold]
  | cons b rest ih =>
    cases b
    · simpa [contactFold, List.any_cons] using ih
    · simp only [contactFold, List.foldl_cons, if_pos rfl, List.any_cons]
      have hone : ∀ l : List Bool,
          l.foldl (fun acc hit => if hit then acc ||| 1 else acc) 1 = 1 := by
        intro l
        induction l with
        | nil => rfl
        | cons c cs ihc => cases c <;> simpa using ihc
      simpa [contactFold] using hone rest

/-- C3: polling a sensor whose occlusion word is clear returns true iff some
overlapping object produces a contact during this very poll, resets the word
before returning, runs exactly one contact test per cached overlap, and with
zero overlaps returns false having run no contact test. -/
theorem C3_poll_consumes_occlusion (s : entity_jump_sensor)
    (overlaps : List Bool) (h : s.occluded = 0) :
    (s.poll overlaps).result = overlaps.any id ∧
    (s.poll overlaps).sensor.occluded = 0 ∧
    (s.poll overlaps).contactTests = overlaps.length ∧
    (overlaps = [] →
      (s.poll overlaps).result = false ∧ (s.poll overlaps).contactTests = 0) := by
  refine ⟨?_, rfl, rfl, ?_⟩
  · rw [entity_jump_sensor.poll]
    simp only [h, contactFold_eq]
    cases hany : overlaps.any id <;> simp
  · rintro rfl
    rw [entity_jump_sensor.poll]
    simp [h, contactFold]

/-- Witness for C3: a freshly constructed sensor with one contacting overlap
polls true, and with no overlaps polls false with zero contact tests. -/
theorem C3_poll_consumes_occlusion_witness :
    ((entity_jump_sensor.construct ⟨1, 1, 1⟩).poll [true]).result = [true].any id ∧
    ((entity_jump_sensor.construct ⟨1, 1, 1⟩).poll [true]).sensor.occluded = 0 ∧
    ((entity_jump_sensor.construct ⟨1, 1, 1⟩).poll [true]).contactTests = [true].length ∧
    ([true] = ([] : List Bool) →
      ((entity_jump_sensor.construct ⟨1, 1, 1⟩).poll [true]).result = false ∧
      ((entity_jump_sensor.construct ⟨1, 1, 1⟩).poll [true]).contactTests = 0) :=
  C3_poll_consumes_occlusion (entity_jump_sensor.construct ⟨1, 1, 1⟩) [true] rfl

/-! ## C10: the occlusion word outside poll calls -/

/-- The operations the rest of the code ever applies to a live jump sensor:
re-placing it under the entity (`update_jump_sensor_transform`) and polling it.
The contact callback that writes the occlusion word runs only inside `poll`'s
contact tests, which the `poll` operation models. -/
inductive SensorOp
  | place (half_dims : Vec3Q) (body_transform : TransformQ)
  | poll (overlaps : List Bool)

/-- One sensor operation. -/
def sensorStep (s : entity_jump_sensor) : SensorOp → entity_jump_sensor
  | .place h t => s.update_jump_sensor_transform h t
  | .poll overlaps => (s.poll overlaps).sensor

theorem sensorStep_occluded (s : entity_jump_sensor) (op : SensorOp)
    (h : s.occluded = 0) : (sensorStep s op).occluded = 0 := by
  cases op with
  | place hd t => simpa [sensorStep, entity_jump_sensor.update_jump_sensor_transform]
  | poll overlaps => simp [sensorStep, entity_jump_sensor.poll]

/-- C10: starting from construction (which zeroes the occlusion word), after
any sequence of placements and polls the occlusion word is zero — the word is
set only inside a poll's contact tests and every poll clears it before
returning, so no poll can observe contacts from an earlier tick. -/
theorem C10_occlusion_clear_outside_poll (half_dims : Vec3Q)
    (ops : List SensorOp) :
    (ops.foldl sensorStep (entity_jump_sensor.construct half_dims)).occluded = 0 := by
  have general : ∀ (l : List SensorOp) (s : entity_jump_sensor),
      s.occluded = 0 → (l.foldl sensorStep s).occluded = 0 := by
    intro l
    induction l with
    | nil => intro s h; simpa
    | cons op rest ih =>
      intro s h
      exact ih (sensorStep s op) (sensorStep_occluded s op h)
  exact general ops (entity_jump_sensor.construct half_dims) rfl

/-! ## C6: sensor dimensions and placement -/

/-- The sensor offset as the claim words it: the same forward offset the code
computes, but a downward offset of half the sensor's height. The sensor box
height is twice its vertical half extent, so half the height is `shapeHalf.z`
itself. -/
def claimC6_offset (s : entity_jump_sensor) (half_dims : Vec3Q) : Vec3Q :=
  (Vec3Q.smul (half_dims.y * (2 - s.shapeHalf.y)) FWDv).add
    (Vec3Q.smul (-s.shapeHalf.z) UPv)

/-- The sensor world transform as the claim words it: the entity transform
composed with `claimC6_offset`. -/
def claimC6_transform (s : entity_jump_sensor) (half_dims : Vec3Q)
    (body_transform : TransformQ) : TransformQ :=
  body_transform.compose ⟨Mat3Q.id, claimC6_offset s half_dims⟩

/-- Counterexample to C6: for an entity with half extents (1,1,1) at the
identity transform, the code places the sensor 1/2 below the entity origin
(`UP * half_dims[UP] * -0.5`), while the claim's "half the sensor's height"
is only 1/4 below (the sensor half height is 0.25, so its height is 0.5). -/
theorem C6_counterexample :
    ((entity_jump_sensor.construct ⟨1, 1, 1⟩).update_jump_sensor_transform
        ⟨1, 1, 1⟩ TransformQ.idT).transform.origin.z = -1 / 2 ∧
    (claimC6_transform (entity_jump_sensor.construct ⟨1, 1, 1⟩) ⟨1, 1, 1⟩
        TransformQ.idT).origin.z = -1 / 4 ∧
    ((entity_jump_sensor.construct ⟨1, 1, 1⟩).update_jump_sensor_transform
        ⟨1, 1, 1⟩ TransformQ.idT).transform ≠
      claimC6_transform (entity_jump_sensor.construct ⟨1, 1, 1⟩) ⟨1, 1, 1⟩
        TransformQ.idT := by
  have h1 : ((entity_jump_sensor.construct ⟨1, 1, 1⟩).update_jump_sensor_transform
      ⟨1, 1, 1⟩ TransformQ.idT).transform.origin.z = -1 / 2 := by
    norm_num [entity_jump_sensor.update_jump_sensor_transform,
      entity_jump_sensor.construct, TransformQ.compose, TransformQ.idT,
      Mat3Q.id, Mat3Q.mulVec, Mat3Q.mul, Vec3Q.add, Vec3Q.smul, Vec3Q.dot,
      Vec3Q.zero, FWDv, UPv]
  have h2 : (claimC6_transform (entity_jump_sensor.construct ⟨1, 1, 1⟩) ⟨1, 1, 1⟩
      TransformQ.idT).origin.z = -1 / 4 := by
    norm_num [claimC6_transform, claimC6_offset, entity_jump_sensor.construct,
      TransformQ.compose, TransformQ.idT, Mat3Q.id, Mat3Q.mulVec, Mat3Q.mul,
      Vec3Q.add, Vec3Q.smul, Vec3Q.dot, Vec3Q.zero, FWDv, UPv]
  refine ⟨h1, h2, fun h => ?_⟩
  have h3 : (-1 / 2 : ℚ) = -1 / 4 := by
    rw [← h1, ← h2]
    exact congrArg Vec3Q.z (congrArg TransformQ.origin h)
  norm_num at h3

/-- C6 as amended: the sensor box half extents are 0.8 of the entity's in
width and depth and 0.25 in height, and the sensor world transform is the
entity transform composed with a forward offset of
`half_dims.y * (2 - sensor forward half extent)` and a downward offset of half
the entity's vertical half extent (which equals the sensor's full height). -/
theorem C6_sensor_placement_amended (half_dims : Vec3Q) (bt : TransformQ) :
    (entity_jump_sensor.construct half_dims).shapeHalf =
      ⟨(8 / 10) * half_dims.x, (8 / 10) * half_dims.y, (25 / 100) * half_dims.z⟩ ∧
    ((entity_jump_sensor.construct half_dims).update_jump_sensor_transform
        half_dims bt).transform.basis = bt.basis ∧
    ((entity_jump_sensor.construct half_dims).update_jump_sensor_transform
        half_dims bt).transform.origin =
      (bt.basis.mulVec
        ⟨0, half_dims.y * (2 - (8 / 10) * half_dims.y), -(half_dims.z / 2)⟩).add
        bt.origin := by
  refine ⟨rfl, ?_, ?_⟩
  · simp [entity_jump_sensor.update_jump_sensor_transform, TransformQ.compose,
      Mat3Q.mul_id]
  · simp only [entity_jump_sensor.update_jump_sensor_transform,
      TransformQ.compose, entity_jump_sensor.construct]
    congr 1
    cases bt with
    | mk basis origin =>
      simp only [Vec3Q.add_zero_left, Mat3Q.mulVec]
      congr 1 <;> simp [Vec3Q.add, Vec3Q.smul, Vec3Q.dot, FWDv, UPv] <;> ring_nf

/-! ## The entity collider (entity_collider.cpp) -/

/-- Model of `struct entity_collider`: the rigid body's world transform (the
interpolation transform is identified with it in this single-step model), the
stored half extents, the optional jump sensor, the submitted central forces,
and the result of the most recent sensor poll (`lastPoll`, the value most
recently reported through `entity_collider_get`; the game-version set entry
point consults it for the conditional jump action). -/
structure entity_collider where
  transform : TransformQ
  half_dims : Vec3Q
  jump_sensor : Option entity_jump_sensor
  lastPoll : Bool
  forces : List Vec3Q
deriving DecidableEq, Repr

/-- Result of `entity_collider_get`: the return code, the three output
parameters (none is written on the failure path), and the collider as left
behind (polling mutates the sensor). -/
structure GetResult where
  ret : Int
  outPos : Option Vec3Q
  outRot : Option (ℚ × ℚ)
  outOccluded : Option Bool
  collider : Option entity_collider
deriving Repr

/-- `entity_collider_get`: on a null handle return -1 writing nothing;
otherwise write the interpolated origin, the forward axis rotated by the
body's basis projected to (x, y), poll the sensor when one exists, and
return 0. -/
def entity_collider_get (overlaps : List Bool)
    (collider : Option entity_collider) : GetResult :=
  match collider with
  | none => { ret := -1, outPos := none, outRot := none, outOccluded := none,
              collider := none }
  | some c =>
    let rotation := c.transform.basis.mulVec FWDv
    match c.jump_sensor with
    | some s =>
      let pr := s.poll overlaps
      { ret := 0, outPos := some c.transform.origin,
        outRot := some (rotation.x, rotation.y),
        outOccluded := some pr.result,
        collider := some { c with jump_sensor := some pr.sensor,
                                  lastPoll := pr.result } }
    | none =>
      { ret := 0, outPos := some c.transform.origin,
        outRot := some (rotation.x, rotation.y),
        outOccluded := none, collider := some c }

/-- Result of `entity_collider_get_pos`. -/
structure GetPosResult where
  ret : Int
  outPos : Option Vec3Q
  collider : Option entity_collider
deriving Repr

/-- `entity_collider_get_pos`: position-only read, no sensor poll. -/
def entity_collider_get_pos (collider : Option entity_collider) : GetPosResult :=
  match collider with
  | none => { ret := -1, outPos := none, collider := none }
  | some c => { ret := 0, outPos := some c.transform.origin, collider := some c }

/-- The three externally visible operations `entity_collider_set` performs on
the world, in the order the code runs them. -/
inductive SetEvent
  | writeTransform
  | placeSensor
  | applyForce
deriving DecidableEq, Repr

/-- Result of an `entity_collider_set` style call: return code, the collider
as left behind, the force handed to `applyCentralForce` (none on failure), and
the ordered event trace. -/
structure SetResult where
  ret : Int
  collider : Option entity_collider
  force : Option Vec3Q
  events : List SetEvent
deriving Repr

/-- `entity_collider_set` (physics version): on a null handle return -1 doing
nothing; otherwise write the world transform from `pos` and a rotation of
`rot` about UP (the engine's angle-to-basis conversion is the `rotUpMat`
parameter), re-place the sensor against the just-written transform when one
exists, then apply `vel` with `jump_force` added to its UP component. -/
def entity_collider_set (rotUpMat : ℚ → Mat3Q)
    (collider : Option entity_collider) (pos : Vec3Q) (rot : ℚ) (vel : Vec3Q)
    (jump_force : ℚ) : SetResult :=
  match collider with
  | none => { ret := -1, collider := none, force := none, events := [] }
  | some c =>
    let t2 : TransformQ := ⟨rotUpMat rot, pos⟩
    let c2 := { c with transform := t2 }
    let c3 := match c2.jump_sensor with
      | some s =>
        let s2 := s.update_jump_sensor_transform c2.half_dims t2
        { c2 with jump_sensor := some s2 }
      | none => c2
    let force : Vec3Q := ⟨vel.x, vel.y, vel.z + jump_force⟩
    { ret := 0,
      collider := some { c3 with forces := c3.forces ++ [force] },
      force := some force,
      events := [SetEvent.writeTransform] ++
        (if c.jump_sensor.isSome then [SetEvent.placeSensor] else []) ++
        [SetEvent.applyForce] }

/-- C7: within a successful `entity_collider_set` call on a collider that has
a sensor, the trace is exactly transform write, then sensor placement, then
force application, and the sensor ends up placed against the freshly written
transform (basis from the new rotation, origin at the new position), never a
stale one. -/
theorem C7_set_ordering (rotUpMat : ℚ → Mat3Q) (c : entity_collider)
    (pos : Vec3Q) (rot : ℚ) (vel : Vec3Q) (jump_force : ℚ)
    (s : entity_jump_sensor) (hs : c.jump_sensor = some s) :
    (entity_collider_set rotUpMat (some c) pos rot vel jump_force).events =
      [SetEvent.writeTransform, SetEvent.placeSensor, SetEvent.applyForce] ∧
    ∃ c2, (entity_collider_set rotUpMat (some c) pos rot vel jump_force).collider
        = some c2 ∧
      c2.transform = ⟨rotUpMat rot, pos⟩ ∧
      c2.jump_sensor =
        some (s.update_jump_sensor_transform c.half_dims ⟨rotUpMat rot, pos⟩) := by
  refine ⟨by simp [entity_collider_set, hs], ?_⟩
  refine ⟨_, rfl, ?_, ?_⟩ <;> simp [entity_collider_set, hs]

/-- Witness for C7: a concrete collider carrying a fresh sensor. -/
theorem C7_set_ordering_witness :
    (entity_collider_set (fun _ => Mat3Q.id)
        (some ⟨TransformQ.idT, ⟨1, 1, 1⟩,
               some (entity_jump_sensor.construct ⟨1, 1, 1⟩), false, []⟩)
        ⟨2, 3, 4⟩ 0 ⟨0, 0, 0⟩ 0).events =
      [SetEvent.writeTransform, SetEvent.placeSensor, SetEvent.applyForce] ∧
    ∃ c2, (entity_collider_set (fun _ => Mat3Q.id)
        (some ⟨TransformQ.idT, ⟨1, 1, 1⟩,
               some (entity_jump_sensor.construct ⟨1, 1, 1⟩), false, []⟩)
        ⟨2, 3, 4⟩ 0 ⟨0, 0, 0⟩ 0).collider = some c2 ∧
      c2.transform = ⟨Mat3Q.id, ⟨2, 3, 4⟩⟩ ∧
      c2.jump_sensor =
        some ((entity_jump_sensor.construct ⟨1, 1, 1⟩).update_jump_sensor_transform
          ⟨1, 1, 1⟩ ⟨Mat3Q.id, ⟨2, 3, 4⟩⟩) :=
  C7_set_ordering (fun _ => Mat3Q.id)
    ⟨TransformQ.idT, ⟨1, 1, 1⟩, some (entity_jump_sensor.construct ⟨1, 1, 1⟩),
     false, []⟩
    ⟨2, 3, 4⟩ 0 ⟨0, 0, 0⟩ 0 (entity_jump_sensor.construct ⟨1, 1, 1⟩) rfl

/-- C8: each of `entity_collider_get`, `entity_collider_get_pos` and
`entity_collider_set` fails (nonzero return) exactly on a null collider
handle; the failure path writes no output parameter and performs no operation
on any state; a non-null handle always yields return code 0. -/
theorem C8_null_handle_checks (overlaps : List Bool) (rotUpMat : ℚ → Mat3Q)
    (pos : Vec3Q) (rot : ℚ) (vel : Vec3Q) (jump_force : ℚ) :
    ((entity_collider_get overlaps none).ret ≠ 0 ∧
      (entity_collider_get overlaps none).outPos = none ∧
      (entity_collider_get overlaps none).outRot = none ∧
      (entity_collider_get overlaps none).outOccluded = none ∧
      (entity_collider_get overlaps none).collider = none) ∧
    ((entity_collider_get_pos none).ret ≠ 0 ∧
      (entity_collider_get_pos none).outPos = none ∧
      (entity_collider_get_pos none).collider = none) ∧
    ((entity_collider_set rotUpMat none pos rot vel jump_force).ret ≠ 0 ∧
      (entity_collider_set rotUpMat none pos rot vel jump_force).collider = none ∧
      (entity_collider_set rotUpMat none pos rot vel jump_force).force = none ∧
      (entity_collider_set rotUpMat none pos rot vel jump_force).events = []) ∧
    (∀ c : entity_collider, (entity_collider_get overlaps (some c)).ret = 0) ∧
    (∀ c : entity_collider, (entity_collider_get_pos (some c)).ret = 0) ∧
    (∀ c : entity_collider,
      (entity_collider_set rotUpMat (some c) pos rot vel jump_force).ret = 0) := by
  refine ⟨⟨by simp [entity_collider_get], rfl, rfl, rfl, rfl⟩,
    ⟨by simp [entity_collider_get_pos], rfl, rfl⟩,
    ⟨by simp [entity_collider_set], rfl, rfl, rfl⟩, ?_, fun c => rfl, fun c => rfl⟩
  intro c
  rcases c with ⟨t, hd, js, lp, fs⟩
  cases js <;> rfl

/-! ## C1: the jump action gate (game-version entity_collider_set) -/

/-- `enum class entity_jump_action` from src/game/.../bulletc.hpp. The header
documents the members: NOPE "jumping is out of the question", UNCONDITIONAL
"jump right now", IF_SENSOR_OCCLUDED "jump only if the jump sensor is
occluded". -/
inductive entity_jump_action
  | NOPE
  | UNCONDITIONAL
  | IF_SENSOR_OCCLUDED
deriving DecidableEq, Repr

/-- `struct per_tick_config` from src/game/.../bulletc.hpp: the process-wide
tunables read at the moment a jump action is evaluated. -/
structure per_tick_config where
  jump_sensor_length_scale : ℚ
  jump_force : ℚ
deriving DecidableEq, Repr

/-- Modelled from the spec: the body of the game-version `entity_collider_set`
is not among the sources (src/game/.../bulletc.hpp holds only its declaration
and the jump-action enum). Per spec section 4.3 it writes the world transform,
re-places the sensor against it, and submits `vel` as a central force with the
configured jump impulse added to the UP component when the jump action fires:
UNCONDITIONAL always, the no-jump action never, and the conditional-on-sensor
action (the spec's IF_SENSOR_UNOCCLUDED, carrying the header's member name
IF_SENSOR_OCCLUDED here) exactly when the most recent sensor poll reported
non-occlusion (spec sections 4.3, 6 and 8 Scenario 3). -/
def entity_collider_set_game (cfg : per_tick_config) (rotUpMat : ℚ → Mat3Q)
    (collider : Option entity_collider) (pos : Vec3Q) (rot : ℚ) (vel : Vec3Q)
    (jump_action : entity_jump_action) : SetResult :=
  match collider with
  | none => { ret := -1, collider := none, force := none, events := [] }
  | some c =>
    let t2 : TransformQ := ⟨rotUpMat rot, pos⟩
    let c2 := { c with transform := t2 }
    let c3 := match c2.jump_sensor with
      | some s =>
        let s2 := s.update_jump_sensor_transform c2.half_dims t2
        { c2 with jump_sensor := some s2 }
      | none => c2
    let jump : Bool := match jump_action with
      | .NOPE => false
      | .UNCONDITIONAL => true
      | .IF_SENSOR_OCCLUDED => !c.lastPoll
    let force : Vec3Q := ⟨vel.x, vel.y,
      vel.z + if jump then cfg.jump_force else 0⟩
    { ret := 0,
      collider := some { c3 with forces := c3.forces ++ [force] },
      force := some force,
      events := [SetEvent.writeTransform] ++
        (if c.jump_sensor.isSome then [SetEvent.placeSensor] else []) ++
        [SetEvent.applyForce] }

/-- C1: the upward impulse is added to the submitted force exactly when the
action is UNCONDITIONAL, or when it is the conditional-on-sensor action and
the most recent poll reported non-occlusion; for the no-jump action the
submitted force is the velocity unchanged. -/
theorem C1_jump_gate (cfg : per_tick_config) (rotUpMat : ℚ → Mat3Q)
    (c : entity_collider) (pos : Vec3Q) (rot : ℚ) (vel : Vec3Q)
    (a : entity_jump_action) (h : cfg.jump_force ≠ 0) :
    ((entity_collider_set_game cfg rotUpMat (some c) pos rot vel a).force =
        some ⟨vel.x, vel.y, vel.z + cfg.jump_force⟩ ↔
      (a = .UNCONDITIONAL ∨
        (a = .IF_SENSOR_OCCLUDED ∧ c.lastPoll = false))) ∧
    (a = .NOPE →
      (entity_collider_set_game cfg rotUpMat (some c) pos rot vel a).force =
        some ⟨vel.x, vel.y, vel.z⟩) := by
  cases a <;> cases hlp : c.lastPoll <;>
    simp [entity_collider_set_game, hlp, h, self_eq_add_right]

/-- Witness for C1: with jump force 1, the conditional-on-sensor action and a
most recent poll reporting non-occlusion, the submitted force carries the
impulse. -/
theorem C1_jump_gate_witness :
    (entity_collider_set_game ⟨1, 1⟩ (fun _ => Mat3Q.id)
        (some ⟨TransformQ.idT, ⟨1, 1, 1⟩, none, false, []⟩)
        ⟨0, 0, 0⟩ 0 ⟨0, 0, 0⟩ .IF_SENSOR_OCCLUDED).force =
      some ⟨0, 0, 0 + 1⟩ :=
  (C1_jump_gate ⟨1, 1⟩ (fun _ => Mat3Q.id)
    ⟨TransformQ.idT, ⟨1, 1, 1⟩, none, false, []⟩
    ⟨0, 0, 0⟩ 0 ⟨0, 0, 0⟩ .IF_SENSOR_OCCLUDED (by norm_num)).1.mpr
    (Or.inr ⟨rfl, rfl⟩)

/-! ## Slab hot swap (slab_collider_update, dynworld.cpp) -/

/-- The world as `slab_collider_update` touches it: which slab bodies are
registered in the dynamics context, which slab allocations have been freed,
and the next fresh allocation id. -/
structure SlabWorld where
  registered : List Nat
  freed : List Nat
  nextId : Nat
deriving DecidableEq, Repr

/-- The observable steps of `slab_collider_update`, in program order:
copying the vertex/index buffers, `removeRigidBody(prev->slab_body)`,
`delete prev`, allocating the new `slab_collider` (mesh, shape, body), and
`addRigidBody(collider->slab_body, COL_WORLD, COLMASK_WORLD)`. -/
inductive SlabEvent
  | allocBuffers
  | removeBody (id : Nat)
  | freeSlab (id : Nat)
  | allocSlab (id : Nat)
  | registerBody (id : Nat)
deriving DecidableEq, Repr

/-- Effect of one step on the world. -/
def slabApply (w : SlabWorld) : SlabEvent → SlabWorld
  | .allocBuffers => w
  | .removeBody i => { w with registered := w.registered.erase i }
  | .freeSlab i => { w with freed := w.freed ++ [i] }
  | .allocSlab _ => { w with nextId := w.nextId + 1 }
  | .registerBody i => { w with registered := w.registered ++ [i] }

/-- `slab_collider_update`: copy the buffers; if `prev` is non-null, remove
its body from the dynamics context and delete it (a null `prev` is deleted
too, which frees nothing); then build the new slab and register it. Returns
the final world, the returned handle, and the ordered step trace. -/
def slab_collider_update (w : SlabWorld) (prev : Option Nat) :
    SlabWorld × Nat × List SlabEvent :=
  let evs := [SlabEvent.allocBuffers] ++
    (match prev with
     | some p => [SlabEvent.removeBody p, SlabEvent.freeSlab p]
     | none => []) ++
    [SlabEvent.allocSlab w.nextId, SlabEvent.registerBody w.nextId]
  (evs.foldl slabApply w, w.nextId, evs)

/-- C5: starting from a world whose only registered slab body is `prev` (or
none), every prefix of the update leaves at most one slab body registered,
the final world registers exactly the new slab, the returned handle is the
new live slab (not freed — no dangling handle), and when a previous slab is
supplied the trace removes and frees it strictly before the new slab is
allocated and registered. -/
theorem C5_slab_hot_swap (w : SlabWorld) (prev : Option Nat)
    (hreg : w.registered = prev.toList)
    (hfree : w.nextId ∉ w.freed)
    (hprev : ∀ p, prev = some p → p ≠ w.nextId) :
    (∀ n, (((slab_collider_update w prev).2.2.take n).foldl slabApply
        w).registered.length ≤ 1) ∧
    (slab_collider_update w prev).1.registered = [w.nextId] ∧
    (slab_collider_update w prev).2.1 = w.nextId ∧
    (slab_collider_update w prev).2.1 ∉ (slab_collider_update w prev).1.freed ∧
    (∀ p, prev = some p →
      (slab_collider_update w prev).2.2 =
        [SlabEvent.allocBuffers, SlabEvent.removeBody p, SlabEvent.freeSlab p,
         SlabEvent.allocSlab w.nextId, SlabEvent.registerBody w.nextId]) := by
  cases prev with
  | none =>
    simp only [Option.toList] at hreg
    refine ⟨?_, ?_, rfl, ?_, ?_⟩
    · intro n
      rcases n with _ | _ | _ | n <;>
        simp [slab_collider_update, slabApply, hreg]
    · simp [slab_collider_update, slabApply, hreg]
    · simpa [slab_collider_update, slabApply] using hfree
    · intro p hp; cases hp
  | some p =>
    simp only [Option.toList] at hreg
    have hne : w.nextId ≠ p := fun h => (hprev p rfl) h.symm
    refine ⟨?_, ?_, rfl, ?_, ?_⟩
    · intro n
      rcases n with _ | _ | _ | _ | _ | n <;>
        simp [slab_collider_update, slabApply, hreg]
    · simp [slab_collider_update, slabApply, hreg]
    · simp [slab_collider_update, slabApply, hfree, hne]
    · intro q hq
      cases hq
      simp [slab_collider_update]

/-- Witness for C5: a world holding slab 7, replaced by the fresh slab 9. -/
theorem C5_slab_hot_swap_witness :
    (slab_collider_update ⟨[7], [], 9⟩ (some 7)).1.registered = [9] ∧
    (slab_collider_update ⟨[7], [], 9⟩ (some 7)).2.2 =
      [SlabEvent.allocBuffers, SlabEvent.removeBody 7, SlabEvent.freeSlab 7,
       SlabEvent.allocSlab 9, SlabEvent.registerBody 9] :=
  ⟨(C5_slab_hot_swap ⟨[7], [], 9⟩ (some 7) rfl (by simp)
      (fun p hp => by cases hp; decide)).2.1,
   (C5_slab_hot_swap ⟨[7], [], 9⟩ (some 7) rfl (by simp)
      (fun p hp => by cases hp; decide)).2.2.2.2 7 rfl⟩

/-! ## Debug drawing (dynworld_set_debug_drawer / dynworld_debug_draw) -/

/-- The state of `dynworld::debugRenderer`, a raw pointer: NULL (as after
`dynworld` construction), pointing at a live `DebugRenderer`, or dangling
(freed by `delete` but never reassigned). -/
inductive DrawerPtr
  | null
  | valid (id : Nat)
  | dangling (id : Nat)
deriving DecidableEq, Repr

/-- The world as the debug-draw bridge touches it. -/
structure DebugWorld where
  drawer : DrawerPtr
  nextId : Nat
deriving DecidableEq, Repr

/-- `dynworld_create` leaves `debugRenderer = nullptr`. -/
def dynworld_create_debug : DebugWorld := ⟨DrawerPtr.null, 0⟩

/-- `dynworld_set_debug_drawer`: `delete world->debugRenderer` (freeing a live
renderer leaves the field dangling, since the code never nulls it; deleting
NULL is a no-op; deleting an already dangling pointer is a double free, UB),
then, only if `draw_line` is non-null, allocate a fresh renderer and install
it. -/
def dynworld_set_debug_drawer (w : DebugWorld) (draw_line : Option Nat) :
    Option DebugWorld :=
  match w.drawer with
  | .dangling _ => none
  | .null =>
    match draw_line with
    | some _ => some ⟨DrawerPtr.valid w.nextId, w.nextId + 1⟩
    | none => some ⟨DrawerPtr.null, w.nextId⟩
  | .valid i =>
    match draw_line with
    | some _ => some ⟨DrawerPtr.valid w.nextId, w.nextId + 1⟩
    | none => some ⟨DrawerPtr.dangling i, w.nextId⟩

/-- `dynworld_debug_draw`: the code runs
`world->debugRenderer->setFrameBlob(frame_blob)` with no null check, then the
engine's debug traversal (emitting `primitives` line callbacks through the
installed drawer), then detaches the blob. On a live renderer the world is
left unchanged and `primitives` callbacks fire; on a NULL renderer the very
first statement dereferences a null pointer, and on a dangling renderer it
writes to freed memory — both undefined behavior, modelled as `none`. -/
def dynworld_debug_draw (w : DebugWorld) (frame_blob : Nat)
    (primitives : Nat) : Option (DebugWorld × Nat) :=
  match w.drawer with
  | .valid _ => some (w, primitives)
  | .null => none
  | .dangling _ => none

/-- True exactly when a live drawer is installed. -/
def drawer_installed (w : DebugWorld) : Bool :=
  match w.drawer with
  | .valid _ => true
  | _ => false

/-- C2 (divergence): whenever no live drawer is installed — the fresh world,
or a world whose drawer was removed — `dynworld_debug_draw` is not a no-op:
it dereferences the null (or dangling) `debugRenderer` pointer, which is
undefined behavior, never the claimed zero-callback no-op. -/
theorem C2_debug_draw_no_drawer_ub (w : DebugWorld)
    (frame_blob primitives : Nat) (h : drawer_installed w = false) :
    dynworld_debug_draw w frame_blob primitives = none := by
  cases hd : w.drawer <;>
    simp [dynworld_debug_draw, drawer_installed, hd] at h ⊢

/-- Witness for C2 at the failing input: a freshly created world (renderer
NULL) makes `dynworld_debug_draw` hit undefined behavior. -/
theorem C2_debug_draw_no_drawer_ub_witness :
    dynworld_debug_draw dynworld_create_debug 0 0 = none :=
  C2_debug_draw_no_drawer_ub dynworld_create_debug 0 0 rfl

/-! ## C9: direction/quaternion round trip (rotate_to_quat_raw,
rotate_from_quat_raw) -/

/-- A 4-float quaternion (x, y, z, w) as crossing the boundary. -/
structure QuatR where
  qx : ℝ
  qy : ℝ
  qz : ℝ
  qw : ℝ

/-- Modelled from the spec: `rotate_from_quat_raw` is declared in
src/game/.../bulletc.hpp but its translation unit is not among the sources.
Per spec section 6 it is the pure quaternion-to-direction conversion: rotate
the forward axis FWD = (0,1,0) by the quaternion and project onto the
horizontal plane, giving (2(qx qy - qz qw), 1 - 2(qx^2 + qz^2)). -/
def rotate_from_quat_raw (q : QuatR) : ℝ × ℝ :=
  (2 * (q.qx * q.qy - q.qz * q.qw), 1 - 2 * (q.qx * q.qx + q.qz * q.qz))

/-- Modelled from the spec: `rotate_to_quat_raw` is declared in
src/game/.../bulletc.hpp but its translation unit is not among the sources.
Per spec section 6 it is the pure direction-to-quaternion conversion: the
rotation about the vertical axis UP carrying FWD onto the horizontal unit
direction (x, y), i.e. the quaternion (0, 0, z, w) with half-angle components
w = sqrt((1+y)/2) and z chosen with -2 z w = x (taking z = 1 at the
half-turn w = 0). -/
noncomputable def rotate_to_quat_raw (x y : ℝ) : QuatR :=
  ⟨0, 0,
   if Real.sqrt ((1 + y) / 2) = 0 then 1
     else -x / (2 * Real.sqrt ((1 + y) / 2)),
   Real.sqrt ((1 + y) / 2)⟩

/-- C9: for every horizontal unit direction, direction-to-quaternion followed
by quaternion-to-direction returns the direction exactly (in this exact-real
model the round trip has error 0, hence within any floating tolerance). -/
theorem C9_round_trip (x y : ℝ) (h : x ^ 2 + y ^ 2 = 1) :
    rotate_from_quat_raw (rotate_to_quat_raw x y) = (x, y) := by
  have hy : -1 ≤ y := by nlinarith [sq_nonneg x, sq_nonneg (y + 1)]
  have h2 : (0 : ℝ) ≤ (1 + y) / 2 := by linarith
  rcases eq_or_lt_of_le hy with hy1 | hy1
  · have hyv : y = -1 := hy1.symm
    subst hyv
    have hx : x = 0 := by nlinarith
    subst hx
    norm_num [rotate_to_quat_raw, rotate_from_quat_raw]
  · have h3 : (0 : ℝ) < (1 + y) / 2 := by linarith
    have hy2 : 1 + y ≠ 0 := by linarith
    set w := Real.sqrt ((1 + y) / 2) with hwdef
    have hw : 0 < w := Real.sqrt_pos.mpr h3
    have hw0 : w ≠ 0 := ne_of_gt hw
    have hw2 : w ^ 2 = (1 + y) / 2 := Real.sq_sqrt h2
    have h4 : (2 * w) * (2 * w) = 2 * (1 + y) := by linear_combination 4 * hw2
    simp only [rotate_to_quat_raw, rotate_from_quat_raw, if_neg hw0]
    have hx2 : x * x = (1 - y) * (1 + y) := by linear_combination h
    refine Prod.ext ?_ ?_
    · have e2 : (-x / (2 * w)) * w = -x / 2 := by
        rw [div_mul_eq_mul_div, mul_comm 2 w, ← div_div, mul_div_assoc,
          div_self hw0, mul_one]
      rw [e2]
      ring
    · have e1 : (-x / (2 * w)) * (-x / (2 * w)) = (x * x) / (2 * (1 + y)) := by
        rw [div_mul_div_comm, neg_mul_neg, h4]
      have e3 : (x * x) / (2 * (1 + y)) = (1 - y) / 2 := by
        rw [hx2]
        field_simp
        ring
      rw [e1, e3]
      ring

/-- Witness for C9: the round trip at the forward unit direction (0, 1). -/
theorem C9_round_trip_witness :
    rotate_from_quat_raw (rotate_to_quat_raw 0 1) = (0, 1) :=
  C9_round_trip 0 1 (by norm_num)
